import Mathlib

/-!
Shallow embedding of the `mvar-rs` crate (`src/lib.rs`): a Rust port of
Haskell's `MVar`. The crate defines

  pub struct Mvar<T> { value: Mutex<Option<T>>, full: Condvar, empty: Condvar }

with operations `is_empty`, `take`, `try_take`, `put`, `try_put`, `swap`,
`read`, `try_read`, all returning `Result<_, PoisonError<...>>`.

Modelling choices:
* The mutex-guarded payload `Option<T>` is an `Option T`; lock poisoning is a
  boolean flag on the state.  `Mutex::lock` is `Mvar.lock`, which returns the
  guard or the poison error exactly when the flag is set.
* A condition variable has no observable state of its own; what the source
  does with the two condvars is (a) `wait` on one of them and (b) call
  `notify_one` on one of them.  Each public operation is embedded as one
  lock-held critical section producing a `StepResult`: either `done r p n`
  (return value `r`, payload left in the cell `p`, and the multiset `n` of
  `notify_one` calls issued during the section) or `blocked sig`
  (the section reached `sig.wait(guard)`; in the source no `notify_one`
  precedes any `wait`, so a blocked section has issued no notification).
  A woken thread re-runs its loop body, which is the same critical section
  again on the then-current state, so the single-section functions below
  describe every iteration of the blocking loops.
* `T: Clone` (needed by `read`/`try_read`) is trivial here: Lean values are
  pure, so `clone` is the value itself.
-/

namespace MvarRs

/-- Models `std::sync::PoisonError<MutexGuard<Option<T>>>`: the error carries
the guard, i.e. recovery access to the guarded `Option<T>` payload. -/
structure LockError (T : Type) where
  guard : Option T
deriving DecidableEq

/-- Models `Mvar<T>`: the mutex-guarded payload plus the mutex's poison flag.
The two condvars carry no state; their notifications are recorded per step in
`Notif`. -/
structure Mvar (T : Type) where
  value : Option T
  poisoned : Bool
deriving DecidableEq

/-- The two condition variables of the struct: `full` (signalled when the cell
becomes full) and `empty` (signalled when it becomes empty). -/
inductive Signal where
  | full
  | empty
deriving DecidableEq

/-- How many `notify_one` calls a critical section issued on each condvar. -/
structure Notif where
  full : Nat
  empty : Nat
deriving DecidableEq

/-- Outcome of one lock-held critical section of an operation: it either
completes with a return value, the payload it leaves behind and the
notifications it issued, or it suspends on a condvar via `wait` (having
issued no notification: in the source no `notify_one` precedes a `wait`). -/
inductive StepResult (T R : Type) where
  | done : R → Option T → Notif → StepResult T R
  | blocked : Signal → StepResult T R
deriving DecidableEq

/-- `Mvar::empty()` (also `Default::default()`): a fresh empty cell. -/
def Mvar.empty (T : Type) : Mvar T := ⟨none, false⟩

/-- `Mvar::new(value)`: a fresh cell containing `value`. -/
def Mvar.new {T : Type} (value : T) : Mvar T := ⟨some value, false⟩

/-- `self.value.lock()?`: yields the guarded payload, or the poison error
(carrying the guard) iff the mutex is poisoned. -/
def Mvar.lock {T : Type} (m : Mvar T) : Except (LockError T) (Option T) :=
  if m.poisoned then .error ⟨m.value⟩ else .ok m.value

/-- The state of the cell after a critical section left payload `p`
(poisoning is untouched by the operations). -/
def Mvar.withValue {T : Type} (m : Mvar T) (p : Option T) : Mvar T :=
  ⟨p, m.poisoned⟩

/-- `Mvar::is_empty`: `Ok(self.value.lock()?.is_none())`. -/
def Mvar.is_empty {T : Type} (m : Mvar T) : Except (LockError T) (StepResult T Bool) :=
  match m.lock with
  | .error e => .error e
  | .ok guard => .ok (.done guard.isNone guard ⟨0, 0⟩)

/-- `Mvar::take`: lock; if the payload is present, take it, `empty.notify_one()`
and return it; otherwise `full.wait(guard)` and loop. -/
def Mvar.take {T : Type} (m : Mvar T) : Except (LockError T) (StepResult T T) :=
  match m.lock with
  | .error e => .error e
  | .ok (some value) => .ok (.done value none ⟨0, 1⟩)
  | .ok none => .ok (.blocked .full)

/-- `Mvar::try_take`: lock; `guard.take()`; `empty.notify_one()` only when a
value was present; never waits. -/
def Mvar.try_take {T : Type} (m : Mvar T) : Except (LockError T) (StepResult T (Option T)) :=
  match m.lock with
  | .error e => .error e
  | .ok (some value) => .ok (.done (some value) none ⟨0, 1⟩)
  | .ok none => .ok (.done none none ⟨0, 0⟩)

/-- `Mvar::put`: lock; if the cell is empty, store the value,
`full.notify_one()` and return; otherwise `empty.wait(guard)` and loop. -/
def Mvar.put {T : Type} (value : T) (m : Mvar T) : Except (LockError T) (StepResult T Unit) :=
  match m.lock with
  | .error e => .error e
  | .ok none => .ok (.done () (some value) ⟨1, 0⟩)
  | .ok (some _w) => .ok (.blocked .empty)

/-- `Mvar::try_put`: lock; if full, return `false` touching nothing; if empty,
store the value, `full.notify_one()` and return `true`; never waits. -/
def Mvar.try_put {T : Type} (value : T) (m : Mvar T) : Except (LockError T) (StepResult T Bool) :=
  match m.lock with
  | .error e => .error e
  | .ok (some w) => .ok (.done false (some w) ⟨0, 0⟩)
  | .ok none => .ok (.done true (some value) ⟨1, 0⟩)

/-- `Mvar::swap`: lock; loop `guard.take()`, on a missing value doing
`guard = self.empty.wait(guard)?` (the source waits on the EMPTY condvar
here); once a value is extracted, store the new value and return the old one.
No `notify_one` appears anywhere in `swap`. -/
def Mvar.swap {T : Type} (value : T) (m : Mvar T) : Except (LockError T) (StepResult T T) :=
  match m.lock with
  | .error e => .error e
  | .ok (some old_value) => .ok (.done old_value (some value) ⟨0, 0⟩)
  | .ok none => .ok (.blocked .empty)

/-- `Mvar::read` (requires `T: Clone`): lock; if a value is present, return a
clone leaving the cell unchanged; otherwise `full.wait(guard)` and loop. -/
def Mvar.read {T : Type} (m : Mvar T) : Except (LockError T) (StepResult T T) :=
  match m.lock with
  | .error e => .error e
  | .ok (some value) => .ok (.done value (some value) ⟨0, 0⟩)
  | .ok none => .ok (.blocked .full)

/-- `Mvar::try_read` (requires `T: Clone`): lock; return `guard.clone()`;
never waits, never notifies. -/
def Mvar.try_read {T : Type} (m : Mvar T) : Except (LockError T) (StepResult T (Option T)) :=
  match m.lock with
  | .error e => .error e
  | .ok guard => .ok (.done guard guard ⟨0, 0⟩)

/-- Whether a `Result` is the error case. -/
def isErr {e a : Type} : Except e a → Bool
  | .error _ => true
  | .ok _ => false

/-- One completed critical section of any public operation, as a transition
between cell states labelled with the notifications it issued.  A constructor
per operation, each tied to the operation's embedding by its defining
equation. -/
inductive Step (T : Type) : Mvar T → Notif → Mvar T → Prop where
  | is_empty (m : Mvar T) (b : Bool) (p : Option T) (n : Notif) :
      Mvar.is_empty m = .ok (.done b p n) → Step T m n (m.withValue p)
  | take (m : Mvar T) (v : T) (p : Option T) (n : Notif) :
      Mvar.take m = .ok (.done v p n) → Step T m n (m.withValue p)
  | try_take (m : Mvar T) (r : Option T) (p : Option T) (n : Notif) :
      Mvar.try_take m = .ok (.done r p n) → Step T m n (m.withValue p)
  | put (m : Mvar T) (v : T) (p : Option T) (n : Notif) :
      Mvar.put v m = .ok (.done () p n) → Step T m n (m.withValue p)
  | try_put (m : Mvar T) (v : T) (b : Bool) (p : Option T) (n : Notif) :
      Mvar.try_put v m = .ok (.done b p n) → Step T m n (m.withValue p)
  | swap (m : Mvar T) (v r : T) (p : Option T) (n : Notif) :
      Mvar.swap v m = .ok (.done r p n) → Step T m n (m.withValue p)
  | read (m : Mvar T) (r : T) (p : Option T) (n : Notif) :
      Mvar.read m = .ok (.done r p n) → Step T m n (m.withValue p)
  | try_read (m : Mvar T) (r : Option T) (p : Option T) (n : Notif) :
      Mvar.try_read m = .ok (.done r p n) → Step T m n (m.withValue p)

/-- Inversion for a completed `take`: it happened on an unpoisoned full cell,
returned the held value, left the cell empty and notified one empty-waiter. -/
theorem take_done_inv {T : Type} {m : Mvar T} {v : T} {p : Option T} {n : Notif}
    (h : Mvar.take m = .ok (.done v p n)) :
    m.poisoned = false ∧ m.value = some v ∧ p = none ∧ n = ⟨0, 1⟩ := by
  obtain ⟨value, poisoned⟩ := m
  cases poisoned <;> cases value <;>
    simp_all [Mvar.take, Mvar.lock]

/-- Inversion for a completed `is_empty`: payload and state unchanged, no
notification. -/
theorem is_empty_done_inv {T : Type} {m : Mvar T} {b : Bool} {p : Option T} {n : Notif}
    (h : Mvar.is_empty m = .ok (.done b p n)) :
    m.poisoned = false ∧ b = m.value.isNone ∧ p = m.value ∧ n = ⟨0, 0⟩ := by
  obtain ⟨value, poisoned⟩ := m
  cases poisoned <;> cases value <;>
    simp_all [Mvar.is_empty, Mvar.lock] <;> aesop

/-- Inversion for a completed `try_take`: on a full cell it empties it and
notifies one empty-waiter; on an empty cell it does nothing. -/
theorem try_take_done_inv {T : Type} {m : Mvar T} {r : Option T} {p : Option T} {n : Notif}
    (h : Mvar.try_take m = .ok (.done r p n)) :
    m.poisoned = false ∧ p = none ∧ r = m.value ∧
      ((m.value = none ∧ n = ⟨0, 0⟩) ∨ (m.value.isSome = true ∧ n = ⟨0, 1⟩)) := by
  obtain ⟨value, poisoned⟩ := m
  cases poisoned <;> cases value <;>
    simp_all [Mvar.try_take, Mvar.lock] <;> aesop

/-- Inversion for a completed `put`: it happened on an unpoisoned empty cell,
stored the value and notified one full-waiter. -/
theorem put_done_inv {T : Type} {m : Mvar T} {v : T} {p : Option T} {n : Notif}
    (h : Mvar.put v m = .ok (.done () p n)) :
    m.poisoned = false ∧ m.value = none ∧ p = some v ∧ n = ⟨1, 0⟩ := by
  obtain ⟨value, poisoned⟩ := m
  cases poisoned <;> cases value <;>
    simp_all [Mvar.put, Mvar.lock]

/-- Inversion for a completed `try_put`: on an empty cell it stores the value
and notifies one full-waiter; on a full cell it changes nothing and notifies
nobody. -/
theorem try_put_done_inv {T : Type} {m : Mvar T} {v : T} {b : Bool} {p : Option T} {n : Notif}
    (h : Mvar.try_put v m = .ok (.done b p n)) :
    m.poisoned = false ∧
      ((m.value = none ∧ b = true ∧ p = some v ∧ n = ⟨1, 0⟩) ∨
       (m.value.isSome = true ∧ b = false ∧ p = m.value ∧ n = ⟨0, 0⟩)) := by
  obtain ⟨value, poisoned⟩ := m
  cases poisoned <;> cases value <;>
    simp_all [Mvar.try_put, Mvar.lock] <;> aesop

/-- Inversion for a completed `swap`: it happened on an unpoisoned full cell,
returned the old value, stored the new one, and notified nobody. -/
theorem swap_done_inv {T : Type} {m : Mvar T} {v r : T} {p : Option T} {n : Notif}
    (h : Mvar.swap v m = .ok (.done r p n)) :
    m.poisoned = false ∧ m.value = some r ∧ p = some v ∧ n = ⟨0, 0⟩ := by
  obtain ⟨value, poisoned⟩ := m
  cases poisoned <;> cases value <;>
    simp_all [Mvar.swap, Mvar.lock]

/-- Inversion for a completed `read`: it happened on an unpoisoned full cell,
returned a clone of the held value, left the cell unchanged, notified
nobody. -/
theorem read_done_inv {T : Type} {m : Mvar T} {r : T} {p : Option T} {n : Notif}
    (h : Mvar.read m = .ok (.done r p n)) :
    m.poisoned = false ∧ m.value = some r ∧ p = some r ∧ n = ⟨0, 0⟩ := by
  obtain ⟨value, poisoned⟩ := m
  cases poisoned <;> cases value <;>
    simp_all [Mvar.read, Mvar.lock] <;> aesop

/-- Inversion for a completed `try_read`: payload and state unchanged, no
notification. -/
theorem try_read_done_inv {T : Type} {m : Mvar T} {r : Option T} {p : Option T} {n : Notif}
    (h : Mvar.try_read m = .ok (.done r p n)) :
    m.poisoned = false ∧ r = m.value ∧ p = m.value ∧ n = ⟨0, 0⟩ := by
  obtain ⟨value, poisoned⟩ := m
  cases poisoned <;> cases value <;>
    simp_all [Mvar.try_read, Mvar.lock] <;> aesop

/-- C1: the claim says `swap` on an Empty cell waits on the Full-signal and
never on the Empty-signal.  The code does the opposite: its wait statement is
`guard = self.empty.wait(guard)?`, so the critical section of `swap` on an
empty, unpoisoned cell suspends on the `empty` condvar — and not on the
`full` condvar the claim requires.  Since `put`/`try_put` notify only the
`full` condvar when they fill the cell, a thread blocked in `swap` misses the
wakeup for the very transition it is waiting for. -/
theorem swap_on_empty_blocks_on_empty_signal :
    Mvar.swap 5 (Mvar.empty Nat) = .ok (.blocked .empty) ∧
    Mvar.swap 5 (Mvar.empty Nat) ≠ .ok (.blocked .full) := by
  refine ⟨rfl, ?_⟩
  intro hc
  exact Signal.noConfusion (StepResult.blocked.inj (Except.ok.inj hc))

/-- C2: round trip.  On an unpoisoned empty cell, `put v` completes at once
storing `v` (waking one full-waiter), a following `take` completes at once
returning exactly `v` (waking one empty-waiter), and afterwards `is_empty`
observes the cell Empty. -/
theorem put_then_take_roundtrip {T : Type} (v : T) (m : Mvar T)
    (hp : m.poisoned = false) (hv : m.value = none) :
    Mvar.put v m = .ok (.done () (some v) ⟨1, 0⟩) ∧
    Mvar.take (m.withValue (some v)) = .ok (.done v none ⟨0, 1⟩) ∧
    Mvar.is_empty ((m.withValue (some v)).withValue none) =
      .ok (.done true none ⟨0, 0⟩) := by
  obtain ⟨value, poisoned⟩ := m
  subst hp
  subst hv
  exact ⟨rfl, rfl, rfl⟩

/-- Witness for C2: `T = Nat`, `v = 3`, a fresh empty cell. -/
theorem put_then_take_roundtrip_witness :
    (Mvar.empty Nat).poisoned = false ∧ (Mvar.empty Nat).value = none ∧
    (Mvar.put 3 (Mvar.empty Nat) = .ok (.done () (some 3) ⟨1, 0⟩) ∧
     Mvar.take ((Mvar.empty Nat).withValue (some 3)) = .ok (.done 3 none ⟨0, 1⟩) ∧
     Mvar.is_empty (((Mvar.empty Nat).withValue (some 3)).withValue none) =
       .ok (.done true none ⟨0, 0⟩)) :=
  ⟨rfl, rfl, put_then_take_roundtrip 3 (Mvar.empty Nat) rfl rfl⟩

/-- C3: scenario on a fresh empty cell.  `try_take` returns `none` (leaving
the cell empty), `try_put 7` returns `true` storing 7, `try_put 8` returns
`false` leaving 7 in place, and `try_read` returns `some 7`.  Each call runs
on the state the previous call left behind. -/
theorem try_ops_scenario :
    Mvar.try_take (Mvar.empty Nat) = .ok (.done none none ⟨0, 0⟩) ∧
    Mvar.try_put 7 ((Mvar.empty Nat).withValue none) =
      .ok (.done true (some 7) ⟨1, 0⟩) ∧
    Mvar.try_put 8 (((Mvar.empty Nat).withValue none).withValue (some 7)) =
      .ok (.done false (some 7) ⟨0, 0⟩) ∧
    Mvar.try_read ((((Mvar.empty Nat).withValue none).withValue (some 7)).withValue (some 7)) =
      .ok (.done (some 7) (some 7) ⟨0, 0⟩) :=
  ⟨rfl, rfl, rfl, rfl⟩

/-- C4: `try_put` on a full, unpoisoned cell completes its single critical
section (it never reaches a `wait`, so it cannot suspend), returns `false`,
leaves the previously held value in place, does not store the supplied value,
and issues no notification on either condvar. -/
theorem try_put_on_full_fails_without_suspending {T : Type} (v w : T) (m : Mvar T)
    (hp : m.poisoned = false) (hv : m.value = some w) :
    Mvar.try_put v m = .ok (.done false (some w) ⟨0, 0⟩) := by
  obtain ⟨value, poisoned⟩ := m
  subst hp
  subst hv
  rfl

/-- Witness for C4: `try_put 8` on a cell holding 7. -/
theorem try_put_on_full_witness :
    (Mvar.new 7 : Mvar Nat).poisoned = false ∧
    (Mvar.new 7 : Mvar Nat).value = some 7 ∧
    Mvar.try_put 8 (Mvar.new 7) = .ok (.done false (some 7) ⟨0, 0⟩) :=
  ⟨rfl, rfl, try_put_on_full_fails_without_suspending 8 7 (Mvar.new 7) rfl rfl⟩

/-- C5: `read` on a full, unpoisoned cell returns a duplicate of the held
value and leaves the cell full with that same value; hence a second `read` on
the resulting state returns the same value again, and a `take` on the
resulting state also returns that same value. -/
theorem read_nonconsuming {T : Type} (v : T) (m : Mvar T)
    (hp : m.poisoned = false) (hv : m.value = some v) :
    Mvar.read m = .ok (.done v (some v) ⟨0, 0⟩) ∧
    Mvar.read (m.withValue (some v)) = .ok (.done v (some v) ⟨0, 0⟩) ∧
    Mvar.take (m.withValue (some v)) = .ok (.done v none ⟨0, 1⟩) := by
  obtain ⟨value, poisoned⟩ := m
  subst hp
  subst hv
  exact ⟨rfl, rfl, rfl⟩

/-- Witness for C5: a cell holding 5. -/
theorem read_nonconsuming_witness :
    (Mvar.new 5 : Mvar Nat).poisoned = false ∧
    (Mvar.new 5 : Mvar Nat).value = some 5 ∧
    (Mvar.read (Mvar.new 5) = .ok (.done 5 (some 5) ⟨0, 0⟩) ∧
     Mvar.read ((Mvar.new 5 : Mvar Nat).withValue (some 5)) =
       .ok (.done 5 (some 5) ⟨0, 0⟩) ∧
     Mvar.take ((Mvar.new 5 : Mvar Nat).withValue (some 5)) =
       .ok (.done 5 none ⟨0, 1⟩)) :=
  ⟨rfl, rfl, read_nonconsuming 5 (Mvar.new 5) rfl rfl⟩

/-- C6: `swap v` on a full, unpoisoned cell holding `w` returns `w`, stores
`v` (the cell stays Full), issues no notification on either condvar, and a
subsequent `try_read` on the resulting state returns `some v`. -/
theorem swap_on_full_replaces_value {T : Type} (v w : T) (m : Mvar T)
    (hp : m.poisoned = false) (hv : m.value = some w) :
    Mvar.swap v m = .ok (.done w (some v) ⟨0, 0⟩) ∧
    Mvar.try_read (m.withValue (some v)) = .ok (.done (some v) (some v) ⟨0, 0⟩) := by
  obtain ⟨value, poisoned⟩ := m
  subst hp
  subst hv
  exact ⟨rfl, rfl⟩

/-- Witness for C6: the spec scenario — a cell holding 1, `swap 2` returns 1
and `try_read` then returns `some 2`. -/
theorem swap_on_full_witness :
    (Mvar.new 1 : Mvar Nat).poisoned = false ∧
    (Mvar.new 1 : Mvar Nat).value = some 1 ∧
    (Mvar.swap 2 (Mvar.new 1) = .ok (.done 1 (some 2) ⟨0, 0⟩) ∧
     Mvar.try_read ((Mvar.new 1 : Mvar Nat).withValue (some 2)) =
       .ok (.done (some 2) (some 2) ⟨0, 0⟩)) :=
  ⟨rfl, rfl, swap_on_full_replaces_value 2 1 (Mvar.new 1) rfl rfl⟩

/-- C7: at every observation point (before and after any completed critical
section of any operation) the cell is in exactly one of the two states Empty
and Full, and every completed section either leaves the state kind unchanged
or makes a single alternating transition: to Full only from Empty, to Empty
only from Full. -/
theorem state_machine_two_states_alternating {T : Type} (m m' : Mvar T) (n : Notif)
    (h : Step T m n m') :
    ((m.value.isNone = true ∨ m.value.isSome = true) ∧
      ¬(m.value.isNone = true ∧ m.value.isSome = true)) ∧
    ((m'.value.isNone = true ∨ m'.value.isSome = true) ∧
      ¬(m'.value.isNone = true ∧ m'.value.isSome = true)) ∧
    (m.value.isSome = m'.value.isSome ∨
     (m.value.isNone = true ∧ m'.value.isSome = true) ∨
     (m.value.isSome = true ∧ m'.value.isNone = true)) := by
  cases h <;>
    (obtain ⟨value, poisoned⟩ := m) <;>
    rename_i p _ <;>
    cases value <;> cases p <;> simp [Mvar.withValue]

/-- Witness for C7: the `put 5` step on a fresh empty cell. -/
theorem state_machine_witness :
    Step Nat (Mvar.empty Nat) ⟨1, 0⟩ ((Mvar.empty Nat).withValue (some 5)) ∧
    ((((Mvar.empty Nat).value.isNone = true ∨ (Mvar.empty Nat).value.isSome = true) ∧
       ¬((Mvar.empty Nat).value.isNone = true ∧ (Mvar.empty Nat).value.isSome = true)) ∧
     ((((Mvar.empty Nat).withValue (some 5)).value.isNone = true ∨
        ((Mvar.empty Nat).withValue (some 5)).value.isSome = true) ∧
       ¬(((Mvar.empty Nat).withValue (some 5)).value.isNone = true ∧
         ((Mvar.empty Nat).withValue (some 5)).value.isSome = true)) ∧
     ((Mvar.empty Nat).value.isSome = ((Mvar.empty Nat).withValue (some 5)).value.isSome ∨
      ((Mvar.empty Nat).value.isNone = true ∧
        ((Mvar.empty Nat).withValue (some 5)).value.isSome = true) ∨
      ((Mvar.empty Nat).value.isSome = true ∧
        ((Mvar.empty Nat).withValue (some 5)).value.isNone = true))) :=
  ⟨Step.put (Mvar.empty Nat) 5 (some 5) ⟨1, 0⟩ rfl,
   state_machine_two_states_alternating (Mvar.empty Nat)
     ((Mvar.empty Nat).withValue (some 5)) ⟨1, 0⟩
     (Step.put (Mvar.empty Nat) 5 (some 5) ⟨1, 0⟩ rfl)⟩

/-- C8: every public operation returns the lock-poisoned error exactly when
the lock is poisoned, and never errs for any other reason; the non-blocking
variants report a full or empty cell through their `Option`/`Bool` results
(visible in their types), never through the error. -/
theorem error_iff_poisoned {T : Type} (v : T) (m : Mvar T) :
    isErr (Mvar.is_empty m) = m.poisoned ∧
    isErr (Mvar.take m) = m.poisoned ∧
    isErr (Mvar.try_take m) = m.poisoned ∧
    isErr (Mvar.put v m) = m.poisoned ∧
    isErr (Mvar.try_put v m) = m.poisoned ∧
    isErr (Mvar.swap v m) = m.poisoned ∧
    isErr (Mvar.read m) = m.poisoned ∧
    isErr (Mvar.try_read m) = m.poisoned := by
  obtain ⟨value, poisoned⟩ := m
  cases poisoned <;> cases value <;>
    exact ⟨rfl, rfl, rfl, rfl, rfl, rfl, rfl, rfl⟩

/-- C9: every completed critical section of every operation issues at most
one `notify_one` on the `full` condvar and at most one on the `empty`
condvar — no step wakes more than one waiter per signal. -/
theorem notify_at_most_one_per_step {T : Type} (m m' : Mvar T) (n : Notif)
    (h : Step T m n m') : n.full ≤ 1 ∧ n.empty ≤ 1 := by
  cases h <;> rename_i heq
  case is_empty =>
    obtain ⟨-, -, -, rfl⟩ := is_empty_done_inv heq
    exact ⟨by decide, by decide⟩
  case take =>
    obtain ⟨-, -, -, rfl⟩ := take_done_inv heq
    exact ⟨by decide, by decide⟩
  case try_take =>
    obtain ⟨-, -, -, hd⟩ := try_take_done_inv heq
    rcases hd with ⟨-, rfl⟩ | ⟨-, rfl⟩ <;> exact ⟨by decide, by decide⟩
  case put =>
    obtain ⟨-, -, -, rfl⟩ := put_done_inv heq
    exact ⟨by decide, by decide⟩
  case try_put =>
    obtain ⟨-, hd⟩ := try_put_done_inv heq
    rcases hd with ⟨-, -, -, rfl⟩ | ⟨-, -, -, rfl⟩ <;> exact ⟨by decide, by decide⟩
  case swap =>
    obtain ⟨-, -, -, rfl⟩ := swap_done_inv heq
    exact ⟨by decide, by decide⟩
  case read =>
    obtain ⟨-, -, -, rfl⟩ := read_done_inv heq
    exact ⟨by decide, by decide⟩
  case try_read =>
    obtain ⟨-, -, -, rfl⟩ := try_read_done_inv heq
    exact ⟨by decide, by decide⟩

/-- Witness for C9: the `take` step on a cell holding 4. -/
theorem notify_at_most_one_witness :
    Step Nat (Mvar.new 4) ⟨0, 1⟩ ((Mvar.new 4).withValue none) ∧
    (⟨0, 1⟩ : Notif).full ≤ 1 ∧ (⟨0, 1⟩ : Notif).empty ≤ 1 :=
  ⟨Step.take (Mvar.new 4) 4 none ⟨0, 1⟩ rfl,
   notify_at_most_one_per_step (Mvar.new 4) ((Mvar.new 4).withValue none) ⟨0, 1⟩
     (Step.take (Mvar.new 4) 4 none ⟨0, 1⟩ rfl)⟩

/-- C10: `swap` contains no `notify_one` at all, so any completed critical
section of `swap` issues zero notifications on both condvars; a section of
`swap` that suspends has likewise issued none (no `notify_one` precedes the
`wait`).  In particular a thread blocked in `take` (waiting on the `full`
condvar) is never woken by a `swap`. -/
theorem swap_never_notifies {T : Type} (m : Mvar T) (v r : T) (p : Option T) (n : Notif)
    (h : Mvar.swap v m = .ok (.done r p n)) : n = ⟨0, 0⟩ :=
  (swap_done_inv h).2.2.2

/-- Witness for C10: `swap 2` on a cell holding 1 notifies nobody. -/
theorem swap_never_notifies_witness :
    Mvar.swap 2 (Mvar.new 1) = .ok (.done 1 (some 2) ⟨0, 0⟩) ∧
    (⟨0, 0⟩ : Notif) = ⟨0, 0⟩ :=
  ⟨rfl, swap_never_notifies (Mvar.new 1) 2 1 (some 2) ⟨0, 0⟩ rfl⟩

end MvarRs
